import Mathlib

/-!
Verification of the SCBM-NexusLab bill-splitting client.

The development embeds the two source files:
- `src/frontend/app/bill/[id]/page.tsx` — the bill page: the allocation
  computation `myTotals`, the claim submission handler `handleClaim`;
- `src/unnamed/part_000` — the `useUser` hook: identity resolution from
  local storage and `registerUser`.

JavaScript numbers are modelled by the rationals, exact where the source
is floating point.  Local storage is a partial map from keys to strings.
The side effects of `handleClaim` (console logging, alerts, the outbound
fetch) are reified as an effect trace.
-/

namespace BillSplit

/-- Item row, mirroring the `Item` interface of the bill page. -/
structure Item where
  id : String
  name : String
  quantity : ℚ
  unit_price : ℚ
  category : String
deriving Repr, DecidableEq

/-- Claim row, mirroring the `Claim` interface of the bill page. -/
structure Claim where
  item_id : String
  user_id : String
  user_name : String
  percentage : ℚ
deriving Repr, DecidableEq

/-- Bill row, mirroring the `Bill` interface of the bill page. -/
structure Bill where
  id : String
  currency : String
  total_amount : ℚ
  tax_amount : ℚ
  tip_amount : ℚ
deriving Repr, DecidableEq

/-- The `User` interface of the identity hook. -/
structure User where
  id : String
  name : String
deriving Repr, DecidableEq

/-- The record returned by `myTotals`. -/
structure Totals where
  subtotal : ℚ
  tax : ℚ
  tip : ℚ
  total : ℚ
deriving Repr, DecidableEq

/-- The claims referencing an item: claims.filter on a matching item_id
(source line 109, also getClaimants at line 96). -/
def itemClaimants (claims : List Claim) (item : Item) : List Claim :=
  claims.filter (fun c => c.item_id == item.id)

/-- The membership test of source line 110: some claimant of the item
carries the user id. -/
def isMine (claims : List Claim) (userId : String) (item : Item) : Bool :=
  (itemClaimants claims item).any (fun c => c.user_id == userId)

/-- The divisor splitCount of source line 113: the number of claim rows
referencing the item. -/
def splitCount (claims : List Claim) (item : Item) : Nat :=
  (itemClaimants claims item).length

/-- One iteration of the `items.forEach` loop of `myTotals` (source lines
105-116).  The accumulator is the pair (billSubtotal, mySubtotal). -/
def allocStep (claims : List Claim) (userId : String) (acc : ℚ × ℚ)
    (item : Item) : ℚ × ℚ :=
  (acc.1 + item.unit_price,
   if isMine claims userId item then
     acc.2 + item.unit_price / (splitCount claims item : ℚ)
   else
     acc.2)

/-- The (billSubtotal, mySubtotal) pair after the `items.forEach` loop,
starting from `(0, 0)` (source lines 102-116). -/
def subtotals (items : List Item) (claims : List Claim) (userId : String) :
    ℚ × ℚ :=
  items.foldl (allocStep claims userId) (0, 0)

/-- The guarded ratio of source line 119: mySubtotal over billSubtotal
when billSubtotal is positive, else 0. -/
def allocationRatio (items : List Item) (claims : List Claim)
    (userId : String) : ℚ :=
  let s := subtotals items claims userId
  if s.1 > 0 then s.2 / s.1 else 0

/-- The Allocation Engine: `myTotals` (source lines 99-130).  Absent
`user` or `bill` yields the all-zero record; otherwise the loop above,
the guarded ratio, and tax/tip prorated by the ratio. -/
def myTotals (items : List Item) (claims : List Claim) (bill : Option Bill)
    (user : Option User) : Totals :=
  match user, bill with
  | some u, some b =>
    let mySubtotal := (subtotals items claims u.id).2
    let ratio := allocationRatio items claims u.id
    let myTax := b.tax_amount * ratio
    let myTip := b.tip_amount * ratio
    { subtotal := mySubtotal, tax := myTax, tip := myTip,
      total := mySubtotal + myTax + myTip }
  | _, _ => { subtotal := 0, tax := 0, tip := 0, total := 0 }

/-- The implicit share of one item for one user: `unit_price / splitCount`
when the user is among the claimants of the item, else 0 (source lines
110-115, also lines 170-172 of the item list rendering). -/
def itemShare (claims : List Claim) (userId : String) (item : Item) : ℚ :=
  if isMine claims userId item then
    item.unit_price / (splitCount claims item : ℚ)
  else 0

/-- Modelled from the spec, section 4.2, as the reference algorithm for
the refinement claim: billSubtotal is the sum of all unit prices,
mySubtotal the sum over items of the implicit equal-split share
(unit_price divided by the count of claims on the item, counted when the
current user id appears among those claims), ratio guarded at zero, tax
and tip prorated, total the sum of the three parts. -/
def specTotals (items : List Item) (claims : List Claim) (bill : Option Bill)
    (currentUser : Option User) : Totals :=
  match currentUser, bill with
  | some u, some b =>
    let billSubtotal := (items.map Item.unit_price).sum
    let mySubtotal := (items.map (fun item =>
      let ic := claims.filter (fun c => c.item_id == item.id)
      if ic.any (fun c => c.user_id == u.id) then
        item.unit_price / (ic.length : ℚ)
      else 0)).sum
    let ratio := if billSubtotal > 0 then mySubtotal / billSubtotal else 0
    let myTax := b.tax_amount * ratio
    let myTip := b.tip_amount * ratio
    { subtotal := mySubtotal, tax := myTax, tip := myTip,
      total := mySubtotal + myTax + myTip }
  | _, _ => { subtotal := 0, tax := 0, tip := 0, total := 0 }

/-! ### Identity provider (the useUser hook) -/

/-- Local storage: a partial map from string keys to string values. -/
def Storage : Type := String → Option String

/-- Read of localStorage.getItem(key). -/
def getItem (s : Storage) (key : String) : Option String := s key

/-- Write of localStorage.setItem(key, value). -/
def setItem (s : Storage) (key value : String) : Storage :=
  fun k => if k == key then some value else s k

/-- The key `bill_splitter_user_id` of the hook. -/
def USER_ID_KEY : String := "bill_splitter_user_id"

/-- The key `bill_splitter_user_name` of the hook. -/
def USER_NAME_KEY : String := "bill_splitter_user_name"

/-- The load effect of the hook (part_000, lines 13-22): read both keys;
the JavaScript guard `if (storedId && storedName)` holds exactly when
both values are non-null and non-empty, since the empty string is falsy. -/
def resolveUser (storage : Storage) : Option User :=
  match getItem storage USER_ID_KEY, getItem storage USER_NAME_KEY with
  | some storedId, some storedName =>
    if storedId ≠ "" ∧ storedName ≠ "" then
      some { id := storedId, name := storedName }
    else none
  | _, _ => none

/-- The registration function registerUser (part_000, lines 24-29).
The fresh identifier
produced by the external uuid library (`uuidv4()`) is passed in as
`newId`; the function persists id then name and returns the new user
alongside the updated storage. -/
def registerUser (newId : String) (name : String) (storage : Storage) :
    Storage × User :=
  let s1 := setItem storage USER_ID_KEY newId
  let s2 := setItem s1 USER_NAME_KEY name
  (s2, { id := newId, name := name })

/-! ### Claim submission (handleClaim) as an effect trace -/

/-- The observable effects the bill page can perform.  `handleClaim`
(source lines 66-94) can log to the console, alert, and fetch; the
state-mutating effects (`setItems`, `setClaims`, `setBill` and storage
writes) are those used elsewhere in the page and the hook, listed here
so that the frame property of `handleClaim` is expressible. -/
inductive Effect where
  | consoleError (msg : String)
  | alertUser (msg : String)
  | fetchPost (url : String) (item_id user_id user_name : String)
  | setItems (items : List Item)
  | setClaims (claims : List Claim)
  | setBill (bill : Option Bill)
  | storageWrite (key value : String)
deriving Repr, DecidableEq

/-- Outcome of the awaited `fetch` call: a response with `response.ok`
true, a response with a non-success status, or a thrown transport error. -/
inductive FetchOutcome where
  | success
  | serverError (status : Nat)
  | networkFailure
deriving Repr, DecidableEq

/-- The alert message of the catch block (source line 92). -/
def CONNECT_ALERT : String :=
  "Could not connect to server. Check if backend/ngrok is running."

/-- The console message of the missing-configuration branch (line 73). -/
def NO_API_URL_MSG : String := "API URL is not defined in .env.local"

/-- The handler handleClaim (source lines 66-94) as a trace of effects.
With no
resolved user it returns at once; with no configured API URL it logs a
console error and returns; otherwise it posts the claim, and a
non-success status or a transport failure lands in the catch block,
which logs and alerts. -/
def handleClaim (user : Option User) (apiUrl : Option String)
    (billId itemId : String) (outcome : FetchOutcome) : List Effect :=
  match user with
  | none => []
  | some u =>
    match apiUrl with
    | none => [Effect.consoleError NO_API_URL_MSG]
    | some url =>
      let post := Effect.fetchPost
        (url ++ "/v1/bills/" ++ billId ++ "/claim") itemId u.id u.name
      match outcome with
      | FetchOutcome.success => [post]
      | FetchOutcome.serverError _ =>
        [post, Effect.consoleError "Network Error:",
         Effect.alertUser CONNECT_ALERT]
      | FetchOutcome.networkFailure =>
        [post, Effect.consoleError "Network Error:",
         Effect.alertUser CONNECT_ALERT]

/-- The local state of the bill page: the snapshot of items, claims and
bill held in component state, plus the persisted identity storage. -/
structure ClientState where
  items : List Item
  claims : List Claim
  bill : Option Bill
  storage : Storage

/-- How each effect acts on the local state: the three set-state effects
replace their component, a storage write updates local storage, and
console, alert and fetch effects leave the local state untouched. -/
def applyEffect (st : ClientState) (e : Effect) : ClientState :=
  match e with
  | Effect.setItems l => { st with items := l }
  | Effect.setClaims l => { st with claims := l }
  | Effect.setBill b => { st with bill := b }
  | Effect.storageWrite k v => { st with storage := setItem st.storage k v }
  | Effect.consoleError _ => st
  | Effect.alertUser _ => st
  | Effect.fetchPost _ _ _ _ => st

/-! ### Basic lemmas about the allocation loop -/

lemma allocStep_eq (claims : List Claim) (userId : String) (acc : ℚ × ℚ)
    (item : Item) :
    allocStep claims userId acc item =
      (acc.1 + item.unit_price, acc.2 + itemShare claims userId item) := by
  unfold allocStep itemShare
  split <;> simp

lemma subtotals_go (claims : List Claim) (userId : String) :
    ∀ (items : List Item) (a b : ℚ),
      items.foldl (allocStep claims userId) (a, b) =
        (a + (items.map Item.unit_price).sum,
         b + (items.map (itemShare claims userId)).sum) := by
  intro items
  induction items with
  | nil => intro a b; simp
  | cons it rest ih =>
    intro a b
    rw [List.foldl_cons, allocStep_eq, ih]
    simp [add_assoc]

/-- The loop accumulator equals the pair of sums. -/
lemma subtotals_eq_sums (items : List Item) (claims : List Claim)
    (userId : String) :
    subtotals items claims userId =
      ((items.map Item.unit_price).sum,
       (items.map (itemShare claims userId)).sum) := by
  unfold subtotals
  rw [subtotals_go]
  simp

/-- The source computation agrees with the reference algorithm of the
spec on every input. -/
lemma myTotals_eq_specTotals (items : List Item) (claims : List Claim)
    (bill : Option Bill) (user : Option User) :
    myTotals items claims bill user = specTotals items claims bill user := by
  cases user with
  | none => cases bill <;> rfl
  | some u =>
    cases bill with
    | none => rfl
    | some b =>
      simp only [myTotals, specTotals, allocationRatio, subtotals_eq_sums]
      rfl

/-! ### Concrete inputs used by counterexamples and witnesses -/

/-- Sample item priced 90. -/
def exItem : Item :=
  { id := "i1", name := "Pad Thai", quantity := 1, unit_price := 90,
    category := "food" }

/-- Second sample item, priced 60. -/
def exItem2 : Item :=
  { id := "i2", name := "Tea", quantity := 1, unit_price := 60,
    category := "drink" }

/-- Sample item priced 0. -/
def zeroItem : Item :=
  { id := "i3", name := "Water", quantity := 1, unit_price := 0,
    category := "drink" }

/-- Sample bill. -/
def exBill : Bill :=
  { id := "b1", currency := "THB", total_amount := 150, tax_amount := 15,
    tip_amount := 10 }

/-- Sample user. -/
def exUser : User := { id := "alice", name := "Alice" }

/-- A claim by the sample user on the sample item. -/
def exClaim : Claim :=
  { item_id := "i1", user_id := "alice", user_name := "Alice",
    percentage := 0 }

/-- The same claim with a different `percentage` value. -/
def exClaimPct : Claim :=
  { item_id := "i1", user_id := "alice", user_name := "Alice",
    percentage := 50 }

/-- Three claims on the sample item by three distinct users. -/
def threeClaims : List Claim :=
  [{ item_id := "i1", user_id := "u1", user_name := "U1", percentage := 0 },
   { item_id := "i1", user_id := "u2", user_name := "U2", percentage := 0 },
   { item_id := "i1", user_id := "u3", user_name := "U3", percentage := 0 }]

/-! ### Claim theorems -/

/-- C1: for every input (items, claims, bill, currentUser), the
Allocation Engine returns exactly the totals of the reference algorithm
of section 4.2 of the spec: all-zero totals when currentUser or bill is
absent, otherwise the equal-split subtotal, the guarded ratio, prorated
tax and tip, and their sum as total. -/
theorem C1_engine_matches_spec_algorithm (items : List Item)
    (claims : List Claim) (bill : Option Bill) (user : Option User) :
    myTotals items claims bill user = specTotals items claims bill user :=
  myTotals_eq_specTotals items claims bill user

/-- C2 counterexample: adding a duplicate claim row with an
already-present (item_id, user_id) pair does change the output of the
Allocation Engine, contrary to the claim: with a single 90-priced item
claimed once by the user, the subtotal is 90, but duplicating that very
claim row halves it to 45. -/
theorem C2_counterexample :
    myTotals [exItem] [exClaim, exClaim] (some exBill) (some exUser) ≠
      myTotals [exItem] [exClaim] (some exBill) (some exUser) := by
  simp [myTotals, subtotals, allocationRatio, allocStep, isMine,
    splitCount, itemClaimants, exItem, exClaim, exBill, exUser,
    Totals.mk.injEq]
  norm_num

/-- C2 amended: the divisor in the implicit share of an item is the
number of claim rows referencing the item, not the number of distinct
claimant user ids; consequently appending a duplicate of an existing
claim row for that item increases the divisor by one and changes the
share. -/
theorem C2_amended_divisor_is_row_count :
    (∀ (claims : List Claim) (userId : String) (item : Item),
      isMine claims userId item = true →
      itemShare claims userId item =
        item.unit_price / (splitCount claims item : ℚ))
    ∧ (∀ (claims : List Claim) (c : Claim) (userId : String) (item : Item),
      c.item_id = item.id → isMine claims userId item = true →
      itemShare (claims ++ [c]) userId item =
        item.unit_price / ((splitCount claims item : ℚ) + 1)) := by
  constructor
  · intro claims userId item h
    unfold itemShare
    rw [if_pos h]
  · intro claims c userId item hcid hmine
    have hfilter : itemClaimants (claims ++ [c]) item =
        itemClaimants claims item ++ [c] := by
      unfold itemClaimants
      rw [List.filter_append]
      simp [hcid]
    have hmine2 : isMine (claims ++ [c]) userId item = true := by
      unfold isMine at hmine ⊢
      rw [hfilter, List.any_append, hmine]
      rfl
    unfold itemShare
    rw [if_pos hmine2]
    unfold splitCount
    rw [hfilter, List.length_append]
    push_cast
    norm_num

/-- Witness for the amended C2 theorem at concrete inputs. -/
theorem C2_amended_witness :
    isMine [exClaim] "alice" exItem = true ∧
    exClaim.item_id = exItem.id ∧
    itemShare ([exClaim] ++ [exClaim]) "alice" exItem =
      exItem.unit_price / ((splitCount [exClaim] exItem : ℚ) + 1) :=
  ⟨by decide, by decide,
    C2_amended_divisor_is_row_count.2 [exClaim] exClaim "alice" exItem
      (by decide) (by decide)⟩

/-- Equality of two claims on every field the allocation reads, leaving
only `percentage` free. -/
def SamePublicFields (a b : Claim) : Prop :=
  a.item_id = b.item_id ∧ a.user_id = b.user_id ∧ a.user_name = b.user_name

lemma claimants_user_ids_eq (iid : String) :
    ∀ {c1 c2 : List Claim}, List.Forall₂ SamePublicFields c1 c2 →
      (c1.filter (fun c => c.item_id == iid)).map Claim.user_id =
        (c2.filter (fun c => c.item_id == iid)).map Claim.user_id := by
  intro c1 c2 h
  induction h with
  | nil => rfl
  | cons hab _ ih =>
    obtain ⟨hi, hu, _⟩ := hab
    rw [List.filter_cons, List.filter_cons, hi]
    split
    · simp only [List.map_cons, ih, hu]
    · exact ih

lemma any_map_eq {α β : Type} (l : List α) (f : α → β) (p : β → Bool) :
    (l.map f).any p = l.any (fun a => p (f a)) := by
  induction l with
  | nil => rfl
  | cons x xs ih => simp only [List.map_cons, List.any_cons, ih]

lemma isMine_eq_any_map (claims : List Claim) (userId : String)
    (item : Item) :
    isMine claims userId item =
      ((itemClaimants claims item).map Claim.user_id).any
        (fun s => s == userId) := by
  rw [any_map_eq]
  rfl

lemma isMine_eq_of_user_ids_eq {c1 c2 : List Claim} (userId : String)
    (item : Item)
    (h : (itemClaimants c1 item).map Claim.user_id =
      (itemClaimants c2 item).map Claim.user_id) :
    isMine c1 userId item = isMine c2 userId item := by
  rw [isMine_eq_any_map, isMine_eq_any_map, h]

lemma itemShare_eq_of_same_public {c1 c2 : List Claim}
    (h : List.Forall₂ SamePublicFields c1 c2) (userId : String)
    (item : Item) :
    itemShare c1 userId item = itemShare c2 userId item := by
  have hids := claimants_user_ids_eq item.id h
  have hmine := isMine_eq_of_user_ids_eq userId item hids
  have hlen : splitCount c1 item = splitCount c2 item := by
    unfold splitCount
    have hl := congrArg List.length hids
    simpa [itemClaimants] using hl
  unfold itemShare
  rw [hmine, hlen]

lemma subtotals_eq_of_same_public {c1 c2 : List Claim}
    (h : List.Forall₂ SamePublicFields c1 c2) (items : List Item)
    (userId : String) :
    subtotals items c1 userId = subtotals items c2 userId := by
  rw [subtotals_eq_sums, subtotals_eq_sums]
  congr 1
  exact congrArg List.sum
    (List.map_congr_left fun item _ => itemShare_eq_of_same_public h userId item)

/-- C3: the output of the Allocation Engine does not depend on the
percentage field of any claim: two claim lists that agree pointwise on
item_id, user_id and user_name (and so may differ arbitrarily in
percentage) yield identical totals for all items, bill and user. -/
theorem C3_percentage_never_read (claims1 claims2 : List Claim)
    (h : List.Forall₂ SamePublicFields claims1 claims2) (items : List Item)
    (bill : Option Bill) (user : Option User) :
    myTotals items claims1 bill user = myTotals items claims2 bill user := by
  cases user with
  | none => cases bill <;> rfl
  | some u =>
    cases bill with
    | none => rfl
    | some b =>
      have hs := subtotals_eq_of_same_public h items u.id
      simp only [myTotals, allocationRatio, hs]

/-- Witness for C3: the sample claim with percentage 0 and the same
claim with percentage 50 produce the same totals. -/
theorem C3_witness :
    List.Forall₂ SamePublicFields [exClaim] [exClaimPct] ∧
    myTotals [exItem] [exClaim] (some exBill) (some exUser) =
      myTotals [exItem] [exClaimPct] (some exBill) (some exUser) := by
  have h : List.Forall₂ SamePublicFields [exClaim] [exClaimPct] :=
    List.Forall₂.cons ⟨rfl, rfl, rfl⟩ List.Forall₂.nil
  exact ⟨h, C3_percentage_never_read [exClaim] [exClaimPct] h [exItem]
    (some exBill) (some exUser)⟩

lemma sum_map_of_const {α : Type} (l : List α) (f : α → ℚ) (a : ℚ)
    (h : ∀ x ∈ l, f x = a) : (l.map f).sum = l.length * a := by
  induction l with
  | nil => simp
  | cons x xs ih =>
    rw [List.map_cons, List.sum_cons, h x (List.mem_cons_self x xs),
      ih (fun y hy => h y (List.mem_cons_of_mem x hy)), List.length_cons]
    push_cast
    ring

/-- C4: for every item whose claimant user ids are pairwise distinct and
whose split count is at least 1, the implicit shares of its claimants
sum to the unit price of the item; concretely, a 90-priced item claimed
by three distinct users gives each claimant a share of 30, and the
shares sum to 90. -/
theorem C4_shares_sum_to_unit_price :
    (∀ (item : Item) (claims : List Claim),
      ((itemClaimants claims item).map Claim.user_id).Nodup →
      1 ≤ splitCount claims item →
      (((itemClaimants claims item).map Claim.user_id).map
          (fun userId => itemShare claims userId item)).sum = item.unit_price)
    ∧ (itemShare threeClaims "u1" exItem = 30 ∧
       itemShare threeClaims "u2" exItem = 30 ∧
       itemShare threeClaims "u3" exItem = 30 ∧
       (((itemClaimants threeClaims exItem).map Claim.user_id).map
          (fun userId => itemShare threeClaims userId exItem)).sum =
         exItem.unit_price) := by
  constructor
  · intro item claims _ hlen
    have hshare : ∀ userId ∈ (itemClaimants claims item).map Claim.user_id,
        itemShare claims userId item =
          item.unit_price / (splitCount claims item : ℚ) := by
      intro userId hu
      obtain ⟨c, hc, hcu⟩ := List.mem_map.mp hu
      have hmine : isMine claims userId item = true :=
        List.any_eq_true.mpr ⟨c, hc, by rw [beq_iff_eq]; exact hcu⟩
      unfold itemShare
      rw [if_pos hmine]
    have hlen2 : ((itemClaimants claims item).map Claim.user_id).length =
        splitCount claims item := by
      rw [List.length_map]
      rfl
    have hne : (splitCount claims item : ℚ) ≠ 0 := by
      have hp : 0 < splitCount claims item := hlen
      positivity
    rw [sum_map_of_const _ _ _ hshare, hlen2]
    field_simp
  · refine ⟨?_, ?_, ?_, ?_⟩ <;>
      norm_num [itemShare, isMine, splitCount, itemClaimants, threeClaims,
        exItem]

/-- Witness for C4 at the three-claim concrete input. -/
theorem C4_witness :
    ((itemClaimants threeClaims exItem).map Claim.user_id).Nodup ∧
    1 ≤ splitCount threeClaims exItem ∧
    (((itemClaimants threeClaims exItem).map Claim.user_id).map
        (fun userId => itemShare threeClaims userId exItem)).sum =
      exItem.unit_price :=
  ⟨by decide, by decide,
    C4_shares_sum_to_unit_price.1 exItem threeClaims (by decide) (by decide)⟩

/-- C5: the Allocation Engine never divides by zero: whenever the
current user is among the claimants of an item the split count is at
least 1, the ratio is the quotient only under the positivity guard and
is 0 otherwise, and when every item has unit price 0 the ratio resolves
to 0. -/
theorem C5_no_division_by_zero :
    (∀ (claims : List Claim) (userId : String) (item : Item),
      isMine claims userId item = true → 1 ≤ splitCount claims item)
    ∧ (∀ (items : List Item) (claims : List Claim) (userId : String),
      (subtotals items claims userId).1 > 0 →
      allocationRatio items claims userId =
        (subtotals items claims userId).2 / (subtotals items claims userId).1)
    ∧ (∀ (items : List Item) (claims : List Claim) (userId : String),
      ¬ (subtotals items claims userId).1 > 0 →
      allocationRatio items claims userId = 0)
    ∧ (∀ (items : List Item) (claims : List Claim) (userId : String),
      (∀ it ∈ items, it.unit_price = 0) →
      allocationRatio items claims userId = 0) := by
  refine ⟨?_, ?_, ?_, ?_⟩
  · intro claims userId item h
    obtain ⟨c, hc, _⟩ := List.any_eq_true.mp h
    exact List.length_pos.mpr (List.ne_nil_of_mem hc)
  · intro items claims userId h
    unfold allocationRatio
    rw [if_pos h]
  · intro items claims userId h
    unfold allocationRatio
    rw [if_neg h]
  · intro items claims userId h
    have hzero : (subtotals items claims userId).1 = 0 := by
      rw [subtotals_eq_sums]
      exact List.sum_eq_zero fun x hx => by
        obtain ⟨it, hit, rfl⟩ := List.mem_map.mp hx
        exact h it hit
    unfold allocationRatio
    rw [if_neg (by rw [hzero]; exact lt_irrefl 0)]

/-- Witness for C5: the split-count bound at a concrete claimed item,
the positive-subtotal branch at a priced item, and the zero branch when
the only item has price 0. -/
theorem C5_witness :
    (isMine [exClaim] "alice" exItem = true ∧
      1 ≤ splitCount [exClaim] exItem)
    ∧ ((subtotals [exItem] [exClaim] "alice").1 > 0 ∧
      allocationRatio [exItem] [exClaim] "alice" =
        (subtotals [exItem] [exClaim] "alice").2 /
          (subtotals [exItem] [exClaim] "alice").1)
    ∧ ((∀ it ∈ [zeroItem], it.unit_price = 0) ∧
      allocationRatio [zeroItem] [exClaim] "alice" = 0) := by
  have hpos : (subtotals [exItem] [exClaim] "alice").1 > 0 := by
    norm_num [subtotals, allocStep, isMine, splitCount, itemClaimants,
      exItem, exClaim]
  have hz : ∀ it ∈ [zeroItem], it.unit_price = 0 := by
    intro it hit
    simp only [List.mem_singleton] at hit
    rw [hit]
    rfl
  exact ⟨⟨by decide, C5_no_division_by_zero.1 [exClaim] "alice" exItem
      (by decide)⟩,
    ⟨hpos, C5_no_division_by_zero.2.1 [exItem] [exClaim] "alice" hpos⟩,
    ⟨hz, C5_no_division_by_zero.2.2.2 [zeroItem] [exClaim] "alice" hz⟩⟩

/-- C6: the order of the items list is not semantically significant:
permuting the items leaves the totals of the Allocation Engine
unchanged, for any claims, bill and user. -/
theorem C6_item_order_irrelevant (items1 items2 : List Item)
    (claims : List Claim) (bill : Option Bill) (user : Option User)
    (h : items1.Perm items2) :
    myTotals items1 claims bill user = myTotals items2 claims bill user := by
  cases user with
  | none => cases bill <;> rfl
  | some u =>
    cases bill with
    | none => rfl
    | some b =>
      have hs : subtotals items1 claims u.id = subtotals items2 claims u.id := by
        rw [subtotals_eq_sums, subtotals_eq_sums]
        exact Prod.ext ((h.map Item.unit_price).sum_eq)
          ((h.map (itemShare claims u.id)).sum_eq)
      simp only [myTotals, allocationRatio, hs]

/-- Witness for C6: swapping the two sample items leaves the totals
unchanged. -/
theorem C6_witness :
    ([exItem, exItem2].Perm [exItem2, exItem]) ∧
    myTotals [exItem, exItem2] [exClaim] (some exBill) (some exUser) =
      myTotals [exItem2, exItem] [exClaim] (some exBill) (some exUser) :=
  ⟨List.Perm.swap exItem2 exItem [],
    C6_item_order_irrelevant [exItem, exItem2] [exItem2, exItem] [exClaim]
      (some exBill) (some exUser) (List.Perm.swap exItem2 exItem [])⟩

/-- The caller precondition of registration, from the guard of the join
button (page source line 143), which disables joining while the trimmed
input name is empty: the name is non-empty after trimming, i.e.
contains at least one non-whitespace character. -/
def trimmedNonempty (s : String) : Bool :=
  s.toList.any (fun c => !c.isWhitespace)

/-- Storage with no keys set. -/
def emptyStorage : Storage := fun _ => none

/-- Storage holding a sample persisted identity. -/
def storeEx : Storage :=
  setItem (setItem emptyStorage USER_ID_KEY "id1") USER_NAME_KEY "Ann"

/-- C7: identity persistence round-trips: for a name that is non-empty
after trimming and a non-empty fresh identifier, registerUser followed
by a fresh resolve of the identity from storage (simulating reload)
returns exactly the user that registerUser returned. -/
theorem C7_identity_round_trip (storage : Storage) (newId name : String)
    (hname : trimmedNonempty name = true) (hid : newId ≠ "") :
    resolveUser (registerUser newId name storage).1 =
      some (registerUser newId name storage).2 := by
  have hname2 : name ≠ "" := by
    intro h
    rw [h] at hname
    exact absurd hname (by decide)
  have hk : (USER_ID_KEY == USER_NAME_KEY) = false := by decide
  simp [registerUser, resolveUser, getItem, setItem, hk, hid, hname2]

/-- Witness for C7 on empty storage with a concrete name and id. -/
theorem C7_witness :
    trimmedNonempty "Alice" = true ∧ ("u-123" : String) ≠ "" ∧
    resolveUser (registerUser "u-123" "Alice" emptyStorage).1 =
      some (registerUser "u-123" "Alice" emptyStorage).2 :=
  ⟨by decide, by decide,
    C7_identity_round_trip emptyStorage "u-123" "Alice" (by decide)
      (by decide)⟩

/-- C8 counterexample: with the user resolved and the base endpoint
configuration absent, handleClaim logs a console error and stops; its
effect trace is exactly the one console error, so no blocking alert is
shown, contrary to the claim. -/
theorem C8_counterexample :
    handleClaim (some exUser) none "b1" "i1" FetchOutcome.networkFailure =
      [Effect.consoleError NO_API_URL_MSG]
    ∧ Effect.alertUser CONNECT_ALERT ∉
        handleClaim (some exUser) none "b1" "i1"
          FetchOutcome.networkFailure := by
  constructor
  · rfl
  · decide

/-- C8 amended: when the external base endpoint configuration is absent
and the user is resolved, handleClaim fails fast, surfaced only via a
console error (not an alert), without attempting any network call: its
whole effect trace is one console error. -/
theorem C8_amended_config_error_console_only (u : User)
    (billId itemId : String) (outcome : FetchOutcome) :
    handleClaim (some u) none billId itemId outcome =
      [Effect.consoleError NO_API_URL_MSG] := rfl

/-- C9: handleClaim never updates the local snapshot directly: for
every user, configuration, bill and item identifiers, and fetch
outcome, replaying its effect trace over any client state (items,
claims, bill and the persisted identity storage) leaves that state
unchanged. -/
theorem C9_no_local_state_update (user : Option User)
    (apiUrl : Option String) (billId itemId : String)
    (outcome : FetchOutcome) (st : ClientState) :
    (handleClaim user apiUrl billId itemId outcome).foldl applyEffect st =
      st := by
  cases user with
  | none => rfl
  | some u =>
    cases apiUrl with
    | none => rfl
    | some url => cases outcome <;> rfl

/-- C10: resolving the identity succeeds exactly when both persisted
strings are present and non-empty; overwriting either key with the
empty string makes resolution return absent, just as a missing key
does. -/
theorem C10_resolve_requires_nonempty_values :
    (∀ storage : Storage,
      (∃ u, resolveUser storage = some u) ↔
        ((∃ i, getItem storage USER_ID_KEY = some i ∧ i ≠ "") ∧
         (∃ n, getItem storage USER_NAME_KEY = some n ∧ n ≠ "")))
    ∧ (∀ storage : Storage,
        resolveUser (setItem storage USER_ID_KEY "") = none)
    ∧ (∀ storage : Storage,
        resolveUser (setItem storage USER_NAME_KEY "") = none) := by
  refine ⟨?_, ?_, ?_⟩
  · intro storage
    constructor
    · rintro ⟨u, hu⟩
      unfold resolveUser at hu
      cases h1 : getItem storage USER_ID_KEY with
      | none => rw [h1] at hu; exact absurd hu (by simp)
      | some i =>
        cases h2 : getItem storage USER_NAME_KEY with
        | none => rw [h1, h2] at hu; exact absurd hu (by simp)
        | some n =>
          rw [h1, h2] at hu
          have hu2 : (if i ≠ "" ∧ n ≠ "" then
              some ({ id := i, name := n } : User) else none) = some u := hu
          by_cases hc : i ≠ "" ∧ n ≠ ""
          · exact ⟨⟨i, rfl, hc.1⟩, ⟨n, rfl, hc.2⟩⟩
          · rw [if_neg hc] at hu2
            exact absurd hu2 (by simp)
    · rintro ⟨⟨i, hi, hine⟩, ⟨n, hn, hnne⟩⟩
      refine ⟨{ id := i, name := n }, ?_⟩
      unfold resolveUser
      rw [hi, hn]
      show (if i ≠ "" ∧ n ≠ "" then
        some ({ id := i, name := n } : User) else none) = _
      rw [if_pos ⟨hine, hnne⟩]
  · intro storage
    unfold resolveUser getItem setItem
    cases hnm : storage USER_NAME_KEY <;>
      simp [USER_ID_KEY, USER_NAME_KEY]
  · intro storage
    unfold resolveUser getItem setItem
    cases hid : storage USER_ID_KEY <;>
      simp [USER_ID_KEY, USER_NAME_KEY]

/-- Witness for C10: on storage holding the sample identity, setting
the id key to the empty string makes resolution fail, and the iff
recovers that resolution succeeds there beforehand. -/
theorem C10_witness :
    resolveUser (setItem storeEx USER_ID_KEY "") = none ∧
    resolveUser storeEx = some { id := "id1", name := "Ann" } :=
  ⟨C10_resolve_requires_nonempty_values.2.1 storeEx, by decide⟩

end BillSplit
